import Mathlib

/-!
Verification of the PREDIX AI prediction engine
(`src/ai-engine/src/prediction_engine.py` and `src/ai-engine/src/config.py`).

The engine's state and operations are embedded shallowly:

* Python ints become `Int` (counters that only ever start at 0 and are
  incremented become `Nat`), floats that are only constructed from exact
  decimal literals, divisions and comparisons become `ℚ`.
* The external collaborators (`data_collector.get_latest_features`,
  `model_trainer.predict`, `blockchain_interface.sign_message`,
  `model_trainer.get_model_info`, `datetime.now`, `np.random`) are modelled
  as per-call oracle inputs (`Cycle`); a fallible call is an `Option`/`Except`
  value.  Each engine operation also reports how often it consulted the
  Feature Provider, the Classifier and the signer (`Calls`).
* `hashlib.sha256(x).hexdigest()` is external; it is modelled symbolically by
  the injective constructor `Sha256.mk` applied to the preimage, and the hex
  text of a digest is represented by that preimage.  The development only
  relies on which preimage is digested and on injectivity, both of which any
  collision-free model of SHA-256 satisfies.
-/

namespace Predix

/-- Symbolic model of `hashlib.sha256(s.encode()).hexdigest()`: a digest is
identified by its preimage (collision-resistance idealisation). -/
structure Sha256 where
  preimage : String
deriving DecidableEq, Repr

/-- `hashlib.sha256(s).hexdigest()` as a symbolic digest. -/
def sha256Hexdigest (s : String) : Sha256 := ⟨s⟩

/-- The hex text of a digest, as interpolated into Python strings.
Represented symbolically by the preimage (see module comment). -/
def Sha256.hex (d : Sha256) : String := d.preimage

/-- Model of an `np.ndarray` of features: its raw byte content
(`features.tobytes()`) together with its shape. -/
structure Features where
  bytes : String
  shape : List Int
deriving DecidableEq, Repr

/-- `features.shape[-1] if len(features.shape) > 1 else len(features)`
(prediction_engine.py line 143); `len` of an array is its first dimension. -/
def featureCountOf (f : Features) : Int :=
  if f.shape.length > 1 then f.shape.getLastD 0 else f.shape.headD 0

/-- A value stored in the Python `metadata` dict. -/
inductive MetaVal where
  | int (n : Int)
  | rat (q : ℚ)
  | bool (b : Bool)
deriving DecidableEq, Repr

/-- The `PredictionResult` dataclass (prediction_engine.py lines 22-31).
`round_id` is not a declared field; Python allows it to be attached
dynamically (`hasattr(pred, 'round_id')`, line 194), so it is modelled as an
`Option` that the engine itself always leaves at `none`. -/
structure PredictionResult where
  direction : Int
  confidence : ℚ
  timestamp : String
  features_hash : Sha256
  signature_hash : Sha256
  model_version : String
  metadata : List (String × MetaVal)
  round_id : Option Int := none
deriving DecidableEq, Repr

/-- The fields of `Config` (config.py) that the validated/risk-managed core
reads. -/
structure Config where
  PRIVATE_KEY : String
  WEB3_PROVIDER_URL : String
  SEQUENCE_LENGTH : Int
  FEATURE_COUNT : Int
  BATCH_SIZE : Int
  CONFIDENCE_THRESHOLD : ℚ
  MAX_CONSECUTIVE_LOSSES : Int
  EMERGENCY_STOP_THRESHOLD : ℚ
deriving DecidableEq, Repr

/-- `Config.validate_config` (config.py lines 94-109), run by
`__post_init__` at construction; a raised `ValueError` is `.error`. -/
def validateConfig (c : Config) : Except String Unit :=
  if c.PRIVATE_KEY = "" then .error "PRIVATE_KEY is required"
  else if c.WEB3_PROVIDER_URL = "" then .error "WEB3_PROVIDER_URL is required"
  else if c.CONFIDENCE_THRESHOLD < 1/2 ∨ c.CONFIDENCE_THRESHOLD > 1 then
    .error "CONFIDENCE_THRESHOLD must be between 0.5 and 1.0"
  else if c.SEQUENCE_LENGTH < 10 then .error "SEQUENCE_LENGTH must be at least 10"
  else if c.BATCH_SIZE < 1 then .error "BATCH_SIZE must be positive"
  else .ok ()

/-- The mutable state of `PredictionEngine` (prediction_engine.py
lines 49-57). -/
structure EngineState where
  consecutive_losses : Nat
  total_predictions : Nat
  correct_predictions : Nat
  prediction_history : List PredictionResult
  emergency_stop : Bool
  last_prediction_time : Option String
deriving DecidableEq, Repr

/-- The state set up by `PredictionEngine.__init__`. -/
def initialState : EngineState :=
  { consecutive_losses := 0
    total_predictions := 0
    correct_predictions := 0
    prediction_history := []
    emergency_stop := false
    last_prediction_time := none }

/-- `_calculate_accuracy` (prediction_engine.py lines 182-186). -/
def calcAccuracy (s : EngineState) : ℚ :=
  if s.total_predictions = 0 then 0
  else (s.correct_predictions : ℚ) / (s.total_predictions : ℚ)

/-- The external inputs consumed by one engine call: the clock, the Feature
Provider's window (`none` = failure), the Classifier's output, the signer's
answer (`.error` = the sign call raised), the model-info lookup used for the
version tag, Python's repr of the confidence float (used by `str(dict)` in
the signature fallback), and the `np.random` bytes of a manual-override
placeholder window. -/
structure Cycle where
  now : String
  features : Option Features
  direction : Int
  confidence : ℚ
  confidenceRepr : String
  signResult : Except String String
  modelInfoParams : Except String Int
  dummyBytes : String
deriving Repr

/-- `_get_model_version` (prediction_engine.py lines 174-180):
`f"v1.0_{model_info.get('parameters', 0)}"`, or `"v1.0_unknown"` when
`get_model_info` raises. -/
def modelVersion (o : Cycle) : String :=
  match o.modelInfoParams with
  | .ok p => "v1.0_" ++ toString p
  | .error _ => "v1.0_unknown"

/-- The `prediction_data` dict built in `_create_prediction_result`
(prediction_engine.py lines 127-133). -/
structure PredictionData where
  direction : Int
  confidence : ℚ
  timestamp : String
  features_hash : Sha256
  model_version : String
deriving DecidableEq, Repr

/-- The canonical message signed by the Ledger:
`f"{direction}{timestamp}{features_hash}"` (prediction_engine.py line 160). -/
def canonicalMessage (pd : PredictionData) : String :=
  toString pd.direction ++ pd.timestamp ++ pd.features_hash.hex

/-- Python's `str(prediction_data)` (prediction_engine.py line 171): the repr
of the dict in insertion order.  `confRepr` is Python's rendering of the
confidence float. -/
def pyStrOfPredictionData (confRepr : String) (pd : PredictionData) : String :=
  "\x7b'direction': " ++ toString pd.direction ++
  ", 'confidence': " ++ confRepr ++
  ", 'timestamp': '" ++ pd.timestamp ++
  "', 'features_hash': '" ++ pd.features_hash.hex ++
  "', 'model_version': '" ++ pd.model_version ++ "'\x7d"

/-- `_create_signature_hash` (prediction_engine.py lines 156-172): digest of
the external signature, or — when the sign call raises — digest of
`str(prediction_data)`.  Total: the `except` clause always yields a digest. -/
def createSignatureHash (signResult : Except String String) (confRepr : String)
    (pd : PredictionData) : Sha256 :=
  match signResult with
  | .ok signature => sha256Hexdigest signature
  | .error _ => sha256Hexdigest (pyStrOfPredictionData confRepr pd)

/-- `_create_prediction_result` (prediction_engine.py lines 114-154).  Runs
before the tracking counters are updated, so the metadata snapshots the
pre-call state. -/
def createPredictionResult (s : EngineState) (o : Cycle) (direction : Int)
    (confidence : ℚ) (features : Features) : PredictionResult :=
  let features_hash := sha256Hexdigest features.bytes
  let pd : PredictionData :=
    { direction, confidence, timestamp := o.now, features_hash
      model_version := modelVersion o }
  let signature_hash := createSignatureHash o.signResult o.confidenceRepr pd
  { direction, confidence, timestamp := o.now, features_hash, signature_hash
    model_version := pd.model_version
    metadata :=
      [("total_predictions", .int s.total_predictions),
       ("consecutive_losses", .int s.consecutive_losses),
       ("accuracy", .rat (calcAccuracy s)),
       ("feature_count", .int (featureCountOf features))]
    round_id := none }

/-- How often one engine call consulted each collaborator. -/
structure Calls where
  featureProvider : Nat
  classifier : Nat
  signer : Nat
deriving DecidableEq, Repr

/-- The outcome of one `generate_prediction` / `manual_override` call: the
returned value, the engine state afterwards, and the collaborator calls
made. -/
structure GenResult where
  result : Option PredictionResult
  state : EngineState
  calls : Calls
deriving Repr

/-- The history trim (prediction_engine.py lines 101-105): append, then keep
only the last 100 entries (`self.prediction_history[-100:]`). -/
def updateHistory (h : List PredictionResult) (p : PredictionResult) :
    List PredictionResult :=
  let h' := h ++ [p]
  if h'.length > 100 then h'.drop (h'.length - 100) else h'

/-- `generate_prediction` (prediction_engine.py lines 69-112). -/
def generatePrediction (cfg : Config) (s : EngineState) (o : Cycle) : GenResult :=
  if s.emergency_stop then
    ⟨none, s, ⟨0, 0, 0⟩⟩
  else
    match o.features with
    | none => ⟨none, s, ⟨1, 0, 0⟩⟩
    | some features =>
      if o.confidence < cfg.CONFIDENCE_THRESHOLD then
        ⟨none, s, ⟨1, 1, 0⟩⟩
      else
        let p := createPredictionResult s o o.direction o.confidence features
        let s' : EngineState :=
          { s with
            total_predictions := s.total_predictions + 1
            last_prediction_time := some o.now
            prediction_history := updateHistory s.prediction_history p }
        ⟨some p, s', ⟨1, 1, 1⟩⟩

/-- The placeholder window of `manual_override`
(`np.random.random((SEQUENCE_LENGTH, FEATURE_COUNT))`, line 295). -/
def dummyFeatures (cfg : Config) (bytes : String) : Features :=
  ⟨bytes, [cfg.SEQUENCE_LENGTH, cfg.FEATURE_COUNT]⟩

/-- `manual_override` (prediction_engine.py lines 289-309): synthesises a
placeholder window, runs the full attestation path, tags the metadata, and
touches neither the risk state nor the Feature Provider nor the Classifier. -/
def manualOverride (cfg : Config) (s : EngineState) (o : Cycle)
    (direction : Int) (confidence : ℚ) : GenResult :=
  let features := dummyFeatures cfg o.dummyBytes
  let p := createPredictionResult s o direction confidence features
  let p' := { p with metadata := p.metadata ++ [("manual_override", .bool true)] }
  ⟨some p', s, ⟨0, 0, 1⟩⟩

/-- The history lookup of `update_prediction_result` (prediction_engine.py
lines 192-196): the first entry carrying this round id. -/
def findPrediction (h : List PredictionResult) (round_id : Int) :
    Option PredictionResult :=
  h.find? (fun p => decide (p.round_id = some round_id))

/-- `_check_emergency_conditions` (prediction_engine.py lines 219-244). -/
def checkEmergencyConditions (cfg : Config) (s : EngineState) : EngineState :=
  if (s.consecutive_losses : Int) ≥ cfg.MAX_CONSECUTIVE_LOSSES then
    { s with emergency_stop := true }
  else if s.total_predictions ≥ 10 ∧ calcAccuracy s < cfg.EMERGENCY_STOP_THRESHOLD then
    { s with emergency_stop := true }
  else if s.emergency_stop = true ∧ s.consecutive_losses = 0 ∧
      calcAccuracy s ≥ cfg.CONFIDENCE_THRESHOLD then
    { s with emergency_stop := false }
  else s

/-- `update_prediction_result` (prediction_engine.py lines 188-217): a
matched outcome updates the counters and re-evaluates the emergency
conditions; an unmatched round id is a logged no-op. -/
def updatePredictionResult (cfg : Config) (s : EngineState) (round_id : Int)
    (actual_outcome : Int) : EngineState :=
  match findPrediction s.prediction_history round_id with
  | none => s
  | some p =>
    let s' :=
      if p.direction = actual_outcome then
        { s with
          correct_predictions := s.correct_predictions + 1
          consecutive_losses := 0 }
      else
        { s with consecutive_losses := s.consecutive_losses + 1 }
    checkEmergencyConditions cfg s'

/-- `update_model` (prediction_engine.py lines 246-262): when
`model_trainer.load_model()` succeeds, zero the loss streak and clear the
emergency stop; otherwise leave the state alone. -/
def updateModel (s : EngineState) (loadSucceeded : Bool) : EngineState :=
  if loadSucceeded then
    { s with consecutive_losses := 0, emergency_stop := false }
  else s

/-- `reset_emergency_stop` (prediction_engine.py lines 311-315). -/
def resetEmergencyStop (s : EngineState) : EngineState :=
  { s with emergency_stop := false, consecutive_losses := 0 }

/-- The `consecutive_losses` update for one judged outcome:
reset on correct, increment on incorrect. -/
def clStep (cl : Nat) (correct : Bool) : Nat := if correct then 0 else cl + 1

/-- Length of the trailing run of incorrect (`false`) outcomes. -/
def trailingIncorrectRun (outcomes : List Bool) : Nat :=
  (outcomes.reverse.takeWhile (fun b => !b)).length

/-- For each update of a sequence, whether the matched prediction was
correct (unmatched updates contribute nothing). -/
def outcomesOf (h : List PredictionResult) (updates : List (Int × Int)) :
    List Bool :=
  updates.filterMap fun u =>
    (findPrediction h u.1).map (fun p => decide (p.direction = u.2))

/-- A sequence of outcome updates applied in order. -/
def applyUpdates (cfg : Config) (s : EngineState)
    (updates : List (Int × Int)) : EngineState :=
  updates.foldl (fun st u => updatePredictionResult cfg st u.1 u.2) s

/-- States reachable from the initial state by the public operations
`generate_prediction`, `update_prediction_result`, `manual_override`,
`reset_emergency_stop` and `update_model`, under arbitrary external
behaviour. -/
inductive Reachable (cfg : Config) : EngineState → Prop where
  | init : Reachable cfg initialState
  | gen (s : EngineState) (o : Cycle) :
      Reachable cfg s → Reachable cfg (generatePrediction cfg s o).state
  | outcome (s : EngineState) (r a : Int) :
      Reachable cfg s → Reachable cfg (updatePredictionResult cfg s r a)
  | manual (s : EngineState) (o : Cycle) (d : Int) (c : ℚ) :
      Reachable cfg s → Reachable cfg (manualOverride cfg s o d c).state
  | reset (s : EngineState) :
      Reachable cfg s → Reachable cfg (resetEmergencyStop s)
  | model (s : EngineState) (b : Bool) :
      Reachable cfg s → Reachable cfg (updateModel s b)

/-- States reachable from the initial state by `generate_prediction` calls
alone. -/
inductive GenReachable (cfg : Config) : EngineState → Prop where
  | init : GenReachable cfg initialState
  | gen (s : EngineState) (o : Cycle) :
      GenReachable cfg s → GenReachable cfg (generatePrediction cfg s o).state

/-! Concrete fixtures, used to instantiate the theorems below on explicit
inputs.  The numeric values mirror config.py's defaults. -/

/-- A configuration with config.py's default thresholds. -/
def sampleConfig : Config :=
  { PRIVATE_KEY := "0xabc"
    WEB3_PROVIDER_URL := "https://rpc-amoy.polygon.technology/"
    SEQUENCE_LENGTH := 60
    FEATURE_COUNT := 20
    BATCH_SIZE := 32
    CONFIDENCE_THRESHOLD := 3/5
    MAX_CONSECUTIVE_LOSSES := 3
    EMERGENCY_STOP_THRESHOLD := 3/10 }

/-- A sample feature window. -/
def sampleFeatures : Features := ⟨"FEATBYTES", [60, 20]⟩

/-- One healthy prediction cycle: features available, confident classifier,
successful sign call. -/
def sampleCycle : Cycle :=
  { now := "2024-01-01T00:00:00"
    features := some sampleFeatures
    direction := 0
    confidence := 9/10
    confidenceRepr := "0.9"
    signResult := .ok "SIGNED"
    modelInfoParams := .ok 1000
    dummyBytes := "RANDBYTES" }

/-- A cycle whose classifier confidence (0.55) is below the default
threshold (0.6). -/
def lowConfCycle : Cycle := { sampleCycle with confidence := 11/20, confidenceRepr := "0.55" }

/-- A cycle whose external sign call raises. -/
def failSignCycle : Cycle := { sampleCycle with signResult := .error "sign failed" }

/-- A recorded prediction carrying an externally attached round id. -/
def samplePrediction : PredictionResult :=
  { direction := 0
    confidence := 9/10
    timestamp := "2024-01-01T00:00:00"
    features_hash := ⟨"FEATBYTES"⟩
    signature_hash := ⟨"SIGNED"⟩
    model_version := "v1.0_1000"
    metadata := []
    round_id := some 1 }

/-- A state holding one recorded prediction for round 1. -/
def oneRoundState : EngineState :=
  { initialState with prediction_history := [samplePrediction] }

/-- A state whose history is at its 100-entry capacity. -/
def fullHistoryState : EngineState :=
  { initialState with prediction_history := List.replicate 100 samplePrediction }

/-- A configuration that is malformed according to the spec (loss limit
below 1, stop threshold above 1) but passes every check of
`validate_config`. -/
def badConfig : Config :=
  { sampleConfig with MAX_CONSECUTIVE_LOSSES := 0, EMERGENCY_STOP_THRESHOLD := 2 }

/-- A configuration whose confidence threshold (0.4) is below the
recognized range. -/
def lowThresholdConfig : Config := { sampleConfig with CONFIDENCE_THRESHOLD := 2/5 }

/-- The `prediction_data` dict built by the failing-sign sample cycle. -/
def failSignData : PredictionData :=
  { direction := 0
    confidence := 9/10
    timestamp := "2024-01-01T00:00:00"
    features_hash := sha256Hexdigest "FEATBYTES"
    model_version := "v1.0_1000" }

/-! ### Helper lemmas -/

/-- `_check_emergency_conditions` only ever touches `emergency_stop`. -/
theorem checkEmergency_cl (cfg : Config) (s : EngineState) :
    (checkEmergencyConditions cfg s).consecutive_losses = s.consecutive_losses := by
  unfold checkEmergencyConditions
  split
  · rfl
  · split
    · rfl
    · split
      · rfl
      · rfl

theorem checkEmergency_total (cfg : Config) (s : EngineState) :
    (checkEmergencyConditions cfg s).total_predictions = s.total_predictions := by
  unfold checkEmergencyConditions
  split
  · rfl
  · split
    · rfl
    · split
      · rfl
      · rfl

theorem checkEmergency_correct (cfg : Config) (s : EngineState) :
    (checkEmergencyConditions cfg s).correct_predictions = s.correct_predictions := by
  unfold checkEmergencyConditions
  split
  · rfl
  · split
    · rfl
    · split
      · rfl
      · rfl

theorem checkEmergency_history (cfg : Config) (s : EngineState) :
    (checkEmergencyConditions cfg s).prediction_history = s.prediction_history := by
  unfold checkEmergencyConditions
  split
  · rfl
  · split
    · rfl
    · split
      · rfl
      · rfl

/-- An outcome update never touches the history itself. -/
theorem updateResult_history (cfg : Config) (s : EngineState) (r a : Int) :
    (updatePredictionResult cfg s r a).prediction_history = s.prediction_history := by
  unfold updatePredictionResult
  cases h : findPrediction s.prediction_history r with
  | none => rfl
  | some p =>
    by_cases hd : p.direction = a <;> simp [hd, checkEmergency_history]

/-- The `consecutive_losses` effect of one matched outcome update. -/
theorem updateResult_cl_matched (cfg : Config) (s : EngineState) (r a : Int)
    (p : PredictionResult) (h : findPrediction s.prediction_history r = some p) :
    (updatePredictionResult cfg s r a).consecutive_losses =
      if p.direction = a then 0 else s.consecutive_losses + 1 := by
  unfold updatePredictionResult
  rw [h]
  by_cases hd : p.direction = a <;> simp [hd, checkEmergency_cl]

/-! ### Claim theorems -/

/-- C1: in every engine state with `emergency_stop = true`,
`generate_prediction()` returns `None` immediately — the state is untouched
and neither `data_collector.get_latest_features` (Feature Provider) nor
`model_trainer.predict` (Classifier) is invoked. -/
theorem C1_halted_short_circuit (cfg : Config) (s : EngineState) (o : Cycle)
    (h : s.emergency_stop = true) :
    (generatePrediction cfg s o).result = none ∧
    (generatePrediction cfg s o).state = s ∧
    (generatePrediction cfg s o).calls.featureProvider = 0 ∧
    (generatePrediction cfg s o).calls.classifier = 0 := by
  simp [generatePrediction, h]

theorem C1_halted_short_circuit_witness :
    ({ initialState with emergency_stop := true } : EngineState).emergency_stop = true ∧
    ((generatePrediction sampleConfig { initialState with emergency_stop := true }
        sampleCycle).result = none ∧
      (generatePrediction sampleConfig { initialState with emergency_stop := true }
        sampleCycle).state = { initialState with emergency_stop := true } ∧
      (generatePrediction sampleConfig { initialState with emergency_stop := true }
        sampleCycle).calls.featureProvider = 0 ∧
      (generatePrediction sampleConfig { initialState with emergency_stop := true }
        sampleCycle).calls.classifier = 0) :=
  ⟨rfl, C1_halted_short_circuit sampleConfig _ sampleCycle rfl⟩

/-- C6: when the cycle reaches the Classifier (no emergency stop, features
available) and the returned confidence is strictly below
`CONFIDENCE_THRESHOLD`, `generate_prediction()` returns `None`, the whole
engine state (history, counters, emergency flag, last prediction time) is
unchanged, and the signer is never consulted (no attestation). -/
theorem C6_low_confidence_dropped (cfg : Config) (s : EngineState) (o : Cycle)
    (f : Features) (hstop : s.emergency_stop = false) (hf : o.features = some f)
    (hconf : o.confidence < cfg.CONFIDENCE_THRESHOLD) :
    (generatePrediction cfg s o).result = none ∧
    (generatePrediction cfg s o).state = s ∧
    (generatePrediction cfg s o).calls.signer = 0 := by
  simp [generatePrediction, hstop, hf, hconf]

theorem C6_low_confidence_dropped_witness :
    initialState.emergency_stop = false ∧
    lowConfCycle.features = some sampleFeatures ∧
    lowConfCycle.confidence < sampleConfig.CONFIDENCE_THRESHOLD ∧
    ((generatePrediction sampleConfig initialState lowConfCycle).result = none ∧
      (generatePrediction sampleConfig initialState lowConfCycle).state = initialState ∧
      (generatePrediction sampleConfig initialState lowConfCycle).calls.signer = 0) :=
  ⟨rfl, rfl, by norm_num [lowConfCycle, sampleCycle, sampleConfig],
    C6_low_confidence_dropped sampleConfig initialState lowConfCycle sampleFeatures
      rfl rfl (by norm_num [lowConfCycle, sampleCycle, sampleConfig])⟩

/-- C10: whenever `update_model()` succeeds in reloading a model, it zeroes
`consecutive_losses` and clears `emergency_stop` (so a successful reload is
a HALTED-to-ACTIVE path that erases the loss streak without any correct
outcome) while leaving `total_predictions`, `correct_predictions` and
`prediction_history` untouched. -/
theorem C10_model_reload_resets_risk (s : EngineState) :
    (updateModel s true).consecutive_losses = 0 ∧
    (updateModel s true).emergency_stop = false ∧
    (updateModel s true).total_predictions = s.total_predictions ∧
    (updateModel s true).correct_predictions = s.correct_predictions ∧
    (updateModel s true).prediction_history = s.prediction_history ∧
    (updateModel s true).last_prediction_time = s.last_prediction_time := by
  simp [updateModel]

/-- C2: at every re-evaluation by `_check_emergency_conditions` (run after
each matched outcome update), the flag is raised exactly when
`consecutive_losses ≥ MAX_CONSECUTIVE_LOSSES` or (`total_predictions ≥ 10`
and running accuracy `< EMERGENCY_STOP_THRESHOLD`) and never otherwise; and
a raised flag with neither condition holding is cleared exactly when
`consecutive_losses = 0` and running accuracy `≥ CONFIDENCE_THRESHOLD`. -/
theorem C2_emergency_stop_transitions (cfg : Config) (s : EngineState) :
    (s.emergency_stop = false →
      ((checkEmergencyConditions cfg s).emergency_stop = true ↔
        ((s.consecutive_losses : Int) ≥ cfg.MAX_CONSECUTIVE_LOSSES ∨
          (s.total_predictions ≥ 10 ∧
            calcAccuracy s < cfg.EMERGENCY_STOP_THRESHOLD)))) ∧
    (s.emergency_stop = true →
      ¬((s.consecutive_losses : Int) ≥ cfg.MAX_CONSECUTIVE_LOSSES) →
      ¬(s.total_predictions ≥ 10 ∧ calcAccuracy s < cfg.EMERGENCY_STOP_THRESHOLD) →
      ((checkEmergencyConditions cfg s).emergency_stop = false ↔
        (s.consecutive_losses = 0 ∧ calcAccuracy s ≥ cfg.CONFIDENCE_THRESHOLD))) := by
  constructor
  · intro hs
    by_cases h1 : (s.consecutive_losses : Int) ≥ cfg.MAX_CONSECUTIVE_LOSSES
    · simp [checkEmergencyConditions, h1]
    · by_cases h2 : s.total_predictions ≥ 10 ∧
          calcAccuracy s < cfg.EMERGENCY_STOP_THRESHOLD
      · simp [checkEmergencyConditions, h1, h2]
      · simp [checkEmergencyConditions, h1, h2, hs]
  · intro hs h1 h2
    by_cases h3 : s.consecutive_losses = 0 ∧ calcAccuracy s ≥ cfg.CONFIDENCE_THRESHOLD
    · obtain ⟨hcl, hacc⟩ := h3
      unfold checkEmergencyConditions
      rw [if_neg h1, if_neg h2, if_pos ⟨hs, hcl, hacc⟩]
      simp [hcl, hacc]
    · have hno : ¬(s.emergency_stop = true ∧ s.consecutive_losses = 0 ∧
          calcAccuracy s ≥ cfg.CONFIDENCE_THRESHOLD) := by
        intro hc
        exact h3 ⟨hc.2.1, hc.2.2⟩
      unfold checkEmergencyConditions
      rw [if_neg h1, if_neg h2, if_neg hno]
      simp [hs, h3]

theorem C2_emergency_stop_transitions_witness :
    ({ initialState with consecutive_losses := 3 } : EngineState).emergency_stop = false ∧
    (checkEmergencyConditions sampleConfig
      { initialState with consecutive_losses := 3 }).emergency_stop = true :=
  ⟨rfl,
    ((C2_emergency_stop_transitions sampleConfig
        { initialState with consecutive_losses := 3 }).1 rfl).mpr
      (Or.inl (by norm_num [sampleConfig]))⟩

/-- C5: `manual_override` is never gated by the risk state: for every state
(including `emergency_stop = true`) it returns a fully attested result —
features hash of the placeholder window and a signature hash from the
attestation path — tagged `manual_override = true` in its metadata, it
leaves the engine state untouched, it never consults the Feature Provider
or the Classifier, and its returned value is independent of both
`emergency_stop` and `CONFIDENCE_THRESHOLD`. -/
theorem C5_manual_override_ungated (cfg : Config) (s : EngineState) (o : Cycle)
    (d : Int) (c : ℚ) :
    (∃ p, (manualOverride cfg s o d c).result = some p ∧
      p.metadata.lookup "manual_override" = some (.bool true) ∧
      p.features_hash = sha256Hexdigest (dummyFeatures cfg o.dummyBytes).bytes ∧
      p.signature_hash = createSignatureHash o.signResult o.confidenceRepr
        { direction := d, confidence := c, timestamp := o.now
          features_hash := sha256Hexdigest (dummyFeatures cfg o.dummyBytes).bytes
          model_version := modelVersion o }) ∧
    (manualOverride cfg s o d c).state = s ∧
    (manualOverride cfg s o d c).calls.featureProvider = 0 ∧
    (manualOverride cfg s o d c).calls.classifier = 0 ∧
    (∀ b : Bool,
      (manualOverride cfg { s with emergency_stop := b } o d c).result =
        (manualOverride cfg s o d c).result) ∧
    (∀ t : ℚ,
      (manualOverride { cfg with CONFIDENCE_THRESHOLD := t } s o d c).result =
        (manualOverride cfg s o d c).result) := by
  refine ⟨⟨_, rfl, ?_, rfl, rfl⟩, rfl, rfl, rfl, fun b => rfl, fun t => rfl⟩
  rfl

/-- A sequence of matched outcome updates drives `consecutive_losses`
through `clStep` over the per-update correctness booleans. -/
theorem applyUpdates_cl (cfg : Config) (updates : List (Int × Int)) :
    ∀ s : EngineState,
      (∀ u ∈ updates, (findPrediction s.prediction_history u.1).isSome) →
      (applyUpdates cfg s updates).consecutive_losses =
        List.foldl clStep s.consecutive_losses
          (outcomesOf s.prediction_history updates) := by
  induction updates with
  | nil => intro s _; rfl
  | cons u us ih =>
    intro s hm
    obtain ⟨p, hp⟩ := Option.isSome_iff_exists.mp (hm u (List.mem_cons_self u us))
    have hhist : (updatePredictionResult cfg s u.1 u.2).prediction_history =
        s.prediction_history := updateResult_history cfg s u.1 u.2
    have hstep : applyUpdates cfg s (u :: us) =
        applyUpdates cfg (updatePredictionResult cfg s u.1 u.2) us := rfl
    have hout : outcomesOf s.prediction_history (u :: us) =
        decide (p.direction = u.2) :: outcomesOf s.prediction_history us := by
      simp [outcomesOf, hp]
    rw [hstep, ih _ (fun v hv => by rw [hhist]; exact hm v (List.mem_cons_of_mem u hv)),
      hhist, hout, List.foldl_cons]
    congr 1
    rw [updateResult_cl_matched cfg s u.1 u.2 p hp]
    by_cases hd : p.direction = u.2 <;> simp [hd, clStep]

/-- `clStep` folded from 0 computes the length of the trailing run of
incorrect outcomes. -/
theorem foldl_clStep_trailing (bs : List Bool) :
    List.foldl clStep 0 bs = trailingIncorrectRun bs := by
  induction bs using List.reverseRecOn with
  | nil => rfl
  | append_singleton l b ih =>
    rw [List.foldl_append]
    cases b
    · simp [clStep, trailingIncorrectRun, List.takeWhile_cons, ih]
    · simp [clStep, trailingIncorrectRun, List.takeWhile_cons]

/-- C3: over any sequence of matched outcome updates started with a clean
loss streak (as in the initial state), `consecutive_losses` ends equal to
the length of the trailing run of incorrect outcomes; and each single
matched update resets the streak to 0 on a correct outcome
(`direction = actual_outcome`) and increments it by 1 on an incorrect
one. -/
theorem C3_consecutive_losses_trailing_run (cfg : Config) (s : EngineState)
    (updates : List (Int × Int)) (hcl : s.consecutive_losses = 0)
    (hmatched : ∀ u ∈ updates, (findPrediction s.prediction_history u.1).isSome) :
    (applyUpdates cfg s updates).consecutive_losses =
      trailingIncorrectRun (outcomesOf s.prediction_history updates) ∧
    (∀ (st : EngineState) (r a : Int) (p : PredictionResult),
      findPrediction st.prediction_history r = some p →
      (updatePredictionResult cfg st r a).consecutive_losses =
        if p.direction = a then 0 else st.consecutive_losses + 1) := by
  refine ⟨?_, fun st r a p hp => updateResult_cl_matched cfg st r a p hp⟩
  rw [applyUpdates_cl cfg updates s hmatched, hcl, foldl_clStep_trailing]

theorem C3_consecutive_losses_trailing_run_witness :
    (oneRoundState.consecutive_losses = 0 ∧
      ∀ u ∈ [((1 : Int), (1 : Int)), (1, 1)],
        (findPrediction oneRoundState.prediction_history u.1).isSome) ∧
    (applyUpdates sampleConfig oneRoundState [(1, 1), (1, 1)]).consecutive_losses =
      trailingIncorrectRun (outcomesOf oneRoundState.prediction_history [(1, 1), (1, 1)]) :=
  ⟨⟨rfl, by decide⟩,
    (C3_consecutive_losses_trailing_run sampleConfig oneRoundState [(1, 1), (1, 1)]
      rfl (by decide)).1⟩

/-- The history trim keeps the capacity bound. -/
theorem updateHistory_length_le {h : List PredictionResult} (p : PredictionResult)
    (hl : h.length ≤ 100) : (updateHistory h p).length ≤ 100 := by
  unfold updateHistory
  dsimp only
  split
  · simp only [List.length_drop]
    omega
  · next hgt =>
    simp only [List.length_append, List.length_singleton] at hgt ⊢
    omega

/-- At capacity, the trim is a FIFO eviction. -/
theorem updateHistory_evict {h : List PredictionResult} (p : PredictionResult)
    (hl : h.length = 100) : updateHistory h p = h.drop 1 ++ [p] := by
  unfold updateHistory
  dsimp only
  rw [if_pos (by simp [hl])]
  have hlen : (h ++ [p]).length - 100 = 1 := by simp [hl]
  rw [hlen, List.drop_append_of_le_length (by omega)]

/-- Every `generate_prediction` call either leaves the state alone or
performs the full successful-path update. -/
theorem generatePrediction_state_cases (cfg : Config) (s : EngineState) (o : Cycle) :
    (generatePrediction cfg s o).state = s ∨
    ∃ f, o.features = some f ∧
      (generatePrediction cfg s o).state =
        { s with
          total_predictions := s.total_predictions + 1
          last_prediction_time := some o.now
          prediction_history := updateHistory s.prediction_history
            (createPredictionResult s o o.direction o.confidence f) } := by
  unfold generatePrediction
  cases hstop : s.emergency_stop
  · cases hf : o.features with
    | none => simp
    | some f =>
      by_cases hc : o.confidence < cfg.CONFIDENCE_THRESHOLD
      · simp [hc]
      · simp only [Bool.false_eq_true, if_false, if_neg hc]
        exact Or.inr ⟨f, rfl, rfl⟩
  · simp

/-- C7: the history bound.  After any sequence of `generate_prediction()`
calls from the initial state, `prediction_history` has at most 100 entries;
and a successful call made at capacity appends the new prediction while
evicting exactly the oldest entry, keeping the relative order of the
rest (`drop 1` followed by the append). -/
theorem C7_history_capped_fifo (cfg : Config) :
    (∀ s : EngineState, GenReachable cfg s → s.prediction_history.length ≤ 100) ∧
    (∀ (s : EngineState) (o : Cycle) (f : Features),
      s.emergency_stop = false → o.features = some f →
      ¬(o.confidence < cfg.CONFIDENCE_THRESHOLD) →
      s.prediction_history.length = 100 →
      (generatePrediction cfg s o).state.prediction_history =
        s.prediction_history.drop 1 ++
          [createPredictionResult s o o.direction o.confidence f]) := by
  constructor
  · intro s hs
    induction hs with
    | init => simp [initialState]
    | gen s o _ ih =>
      rcases generatePrediction_state_cases cfg s o with heq | ⟨f, _, heq⟩
      · rw [heq]; exact ih
      · rw [heq]; exact updateHistory_length_le _ ih
  · intro s o f hstop hf hc hl
    have : (generatePrediction cfg s o).state =
        { s with
          total_predictions := s.total_predictions + 1
          last_prediction_time := some o.now
          prediction_history := updateHistory s.prediction_history
            (createPredictionResult s o o.direction o.confidence f) } := by
      unfold generatePrediction
      rw [hstop, hf]
      simp [hc]
    rw [this]
    exact updateHistory_evict _ hl

theorem C7_history_capped_fifo_witness :
    (GenReachable sampleConfig initialState ∧
      initialState.prediction_history.length ≤ 100) ∧
    (fullHistoryState.emergency_stop = false ∧
      sampleCycle.features = some sampleFeatures ∧
      ¬(sampleCycle.confidence < sampleConfig.CONFIDENCE_THRESHOLD) ∧
      fullHistoryState.prediction_history.length = 100 ∧
      (generatePrediction sampleConfig fullHistoryState sampleCycle).state.prediction_history =
        fullHistoryState.prediction_history.drop 1 ++
          [createPredictionResult fullHistoryState sampleCycle
            sampleCycle.direction sampleCycle.confidence sampleFeatures]) :=
  ⟨⟨GenReachable.init,
      (C7_history_capped_fifo sampleConfig).1 initialState GenReachable.init⟩,
    rfl, rfl, by norm_num [sampleCycle, sampleConfig],
    by simp [fullHistoryState, initialState],
    (C7_history_capped_fifo sampleConfig).2 fullHistoryState sampleCycle sampleFeatures
      rfl rfl (by norm_num [sampleCycle, sampleConfig])
      (by simp [fullHistoryState, initialState])⟩

/-- Membership after the history trim. -/
theorem mem_updateHistory {h : List PredictionResult} {p q : PredictionResult}
    (hm : p ∈ updateHistory h q) : p ∈ h ++ [q] := by
  unfold updateHistory at hm
  dsimp only at hm
  split at hm
  · exact List.drop_subset _ _ hm
  · exact hm

/-- The engine never attaches a round id to the results it creates. -/
theorem createPredictionResult_round_id (s : EngineState) (o : Cycle)
    (direction : Int) (confidence : ℚ) (features : Features) :
    (createPredictionResult s o direction confidence features).round_id = none := rfl

/-- When no history entry carries a round id, no outcome update matches. -/
theorem findPrediction_none_of_unmatched {h : List PredictionResult}
    (hall : ∀ p ∈ h, p.round_id = none) (r : Int) : findPrediction h r = none := by
  unfold findPrediction
  rw [List.find?_eq_none]
  intro p hp
  simp [hall p hp]

/-- The combined induction invariant for C8: every reachable state has only
round-id-free history entries (no operation of this repository ever attaches
one) and keeps `correct_predictions ≤ total_predictions`. -/
theorem reachable_inv (cfg : Config) (s : EngineState) (h : Reachable cfg s) :
    (∀ p ∈ s.prediction_history, p.round_id = none) ∧
    s.correct_predictions ≤ s.total_predictions := by
  induction h with
  | init => exact ⟨by simp [initialState], Nat.le_refl 0⟩
  | gen s o _ ih =>
    rcases generatePrediction_state_cases cfg s o with heq | ⟨f, _, heq⟩
    · rw [heq]; exact ih
    · rw [heq]
      refine ⟨fun p hp => ?_, Nat.le_succ_of_le ih.2⟩
      rcases List.mem_append.mp (mem_updateHistory hp) with hmem | hnew
      · exact ih.1 p hmem
      · rw [List.mem_singleton.mp hnew]
        exact createPredictionResult_round_id ..
  | outcome s r a _ ih =>
    unfold updatePredictionResult
    rw [findPrediction_none_of_unmatched ih.1 r]
    exact ih
  | manual s o d c _ ih => exact ih
  | reset s _ ih => exact ih
  | model s b _ ih =>
    unfold updateModel
    split
    · exact ih
    · exact ih

/-- C8: `correct_predictions ≤ total_predictions` holds in the initial state
and in every state reachable by sequences of the public operations
`generate_prediction`, `update_prediction_result`, `manual_override`,
`reset_emergency_stop` and `update_model` — including repeated outcome
updates for the same round, which in this repository never match a stored
prediction (no operation attaches a `round_id`) and therefore never move
the counters. -/
theorem C8_correct_le_total (cfg : Config) (s : EngineState)
    (h : Reachable cfg s) :
    s.correct_predictions ≤ s.total_predictions :=
  (reachable_inv cfg s h).2

theorem C8_correct_le_total_witness :
    Reachable sampleConfig
      (updatePredictionResult sampleConfig
        (generatePrediction sampleConfig initialState sampleCycle).state 1 1) ∧
    (updatePredictionResult sampleConfig
        (generatePrediction sampleConfig initialState sampleCycle).state 1
        1).correct_predictions ≤
      (updatePredictionResult sampleConfig
        (generatePrediction sampleConfig initialState sampleCycle).state 1
        1).total_predictions :=
  ⟨Reachable.outcome _ 1 1 (Reachable.gen initialState sampleCycle Reachable.init),
    C8_correct_le_total sampleConfig _
      (Reachable.outcome _ 1 1 (Reachable.gen initialState sampleCycle Reachable.init))⟩

/-- C9 (counterexample): a configuration with `MAX_CONSECUTIVE_LOSSES = 0`
(below 1) and `EMERGENCY_STOP_THRESHOLD = 2` (outside [0, 1]) passes
`validate_config` without raising — construction does not abort on these
two malformed options, refuting the claim as stated. -/
theorem C9_missing_checks_counterexample :
    badConfig.MAX_CONSECUTIVE_LOSSES < 1 ∧
    badConfig.EMERGENCY_STOP_THRESHOLD > 1 ∧
    validateConfig badConfig = .ok () := by
  refine ⟨by norm_num [badConfig, sampleConfig], by norm_num [badConfig, sampleConfig], ?_⟩
  norm_num [validateConfig, badConfig, sampleConfig]
  rfl

/-- C9 (amended): configuration construction aborts at startup whenever
`CONFIDENCE_THRESHOLD` lies outside [0.5, 1.0] or `SEQUENCE_LENGTH` is
below 10 (it likewise aborts on an empty `PRIVATE_KEY` or
`WEB3_PROVIDER_URL` and on `BATCH_SIZE` below 1), but `validate_config`
performs no check at all on `MAX_CONSECUTIVE_LOSSES` or
`EMERGENCY_STOP_THRESHOLD`: its verdict is independent of those two
fields. -/
theorem C9_startup_validation (c : Config) :
    ((c.CONFIDENCE_THRESHOLD < 1/2 ∨ c.CONFIDENCE_THRESHOLD > 1 ∨
        c.SEQUENCE_LENGTH < 10) →
      ∃ msg, validateConfig c = .error msg) ∧
    (∀ (m : Int) (e : ℚ),
      validateConfig
          { c with MAX_CONSECUTIVE_LOSSES := m, EMERGENCY_STOP_THRESHOLD := e } =
        validateConfig c) := by
  refine ⟨fun hbad => ?_, fun m e => rfl⟩
  unfold validateConfig
  split
  · exact ⟨_, rfl⟩
  · split
    · exact ⟨_, rfl⟩
    · split
      · exact ⟨_, rfl⟩
      · next hct =>
        split
        · exact ⟨_, rfl⟩
        · next hsl =>
          exfalso
          rcases hbad with h | h | h
          · exact hct (Or.inl h)
          · exact hct (Or.inr h)
          · exact hsl h

theorem C9_startup_validation_witness :
    (lowThresholdConfig.CONFIDENCE_THRESHOLD < 1/2 ∨
      lowThresholdConfig.CONFIDENCE_THRESHOLD > 1 ∨
      lowThresholdConfig.SEQUENCE_LENGTH < 10) ∧
    (∃ msg, validateConfig lowThresholdConfig = .error msg) :=
  ⟨Or.inl (by norm_num [lowThresholdConfig, sampleConfig]),
    (C9_startup_validation lowThresholdConfig).1
      (Or.inl (by norm_num [lowThresholdConfig, sampleConfig]))⟩

/-- C4 (counterexample): on a failing sign call the pipeline's fallback
digests `str(prediction_data)` — at this concrete input that digest differs
from `digest(canonicalMessage)`, refuting the claim as stated. -/
theorem C4_canonical_fallback_counterexample :
    (generatePrediction sampleConfig initialState failSignCycle).result.map
        (fun p => p.signature_hash) =
      some (createSignatureHash (.error "sign failed") "0.9" failSignData) ∧
    createSignatureHash (.error "sign failed") "0.9" failSignData ≠
      sha256Hexdigest (canonicalMessage failSignData) := by
  constructor
  · norm_num [generatePrediction, initialState, failSignCycle, sampleCycle,
      sampleConfig, createPredictionResult, createSignatureHash, failSignData,
      modelVersion, sampleFeatures]
    rfl
  · intro h
    rw [createSignatureHash] at h
    simp only [Sha256.mk.injEq, sha256Hexdigest] at h
    revert h
    decide

/-- C4 (amended): when the external sign call fails, attestation never
raises to the orchestrator — `generate_prediction` still returns a
prediction whose `signature_hash` is a digest — but the fallback digests
Python's `str(prediction_data)` (the repr of the full mapping with
direction, confidence, timestamp, features hash and model version), not the
canonical message, and the resulting metadata carries no
degraded-attestation flag: its keys are exactly `total_predictions`,
`consecutive_losses`, `accuracy` and `feature_count`. -/
theorem C4_degraded_attestation_fallback (cfg : Config) (s : EngineState)
    (o : Cycle) (f : Features) (err : String)
    (hstop : s.emergency_stop = false) (hf : o.features = some f)
    (hconf : ¬o.confidence < cfg.CONFIDENCE_THRESHOLD)
    (hsign : o.signResult = .error err) :
    (generatePrediction cfg s o).result =
      some (createPredictionResult s o o.direction o.confidence f) ∧
    (createPredictionResult s o o.direction o.confidence f).signature_hash =
      sha256Hexdigest (pyStrOfPredictionData o.confidenceRepr
        { direction := o.direction, confidence := o.confidence
          timestamp := o.now, features_hash := sha256Hexdigest f.bytes
          model_version := modelVersion o }) ∧
    (createPredictionResult s o o.direction o.confidence f).metadata.map
        Prod.fst =
      ["total_predictions", "consecutive_losses", "accuracy", "feature_count"] := by
  refine ⟨?_, ?_, rfl⟩
  · unfold generatePrediction
    rw [hstop, hf]
    simp [hconf]
  · unfold createPredictionResult createSignatureHash
    rw [hsign]

theorem C4_degraded_attestation_fallback_witness :
    (initialState.emergency_stop = false ∧
      failSignCycle.features = some sampleFeatures ∧
      ¬failSignCycle.confidence < sampleConfig.CONFIDENCE_THRESHOLD ∧
      failSignCycle.signResult = .error "sign failed") ∧
    (generatePrediction sampleConfig initialState failSignCycle).result =
      some (createPredictionResult initialState failSignCycle
        failSignCycle.direction failSignCycle.confidence sampleFeatures) :=
  ⟨⟨rfl, rfl, by norm_num [failSignCycle, sampleCycle, sampleConfig], rfl⟩,
    (C4_degraded_attestation_fallback sampleConfig initialState failSignCycle
      sampleFeatures "sign failed" rfl rfl
      (by norm_num [failSignCycle, sampleCycle, sampleConfig]) rfl).1⟩

end Predix
